import Mathlib

/-!
Verification of the hotel-search microservice fleet: the geo service's
proximity queries, the frontend's `/hotels` handler, the profile lookup
service, and the role-dispatching entry point.

Coordinates and distances are modelled as rationals. The haversine
distance function itself is irrational-valued, so every statement about
distances is parametric in the distance function `dist`; instantiating
`dist` with the great-circle distance from a query center yields the
concrete reading.
-/

namespace HotelFind

/-- A hotel's geo location, as in the `point` struct of the geo service
(fields `Pid`, `Plat`, `Plon`). -/
structure GeoPoint where
  id : String
  lat : ℚ
  lon : ℚ
deriving Repr, DecidableEq

/-- The candidate ordering used to rank query results: ascending distance,
ties broken by ascending point id. -/
def distIdLE (dist : GeoPoint → ℚ) (p q : GeoPoint) : Bool :=
  decide (dist p < dist q) || (decide (dist p = dist q) && decide (p.id ≤ q.id))

/-- Modelled from the spec: the third-party clustering index's `KNearest`
(`go-geoindex`, not part of this repository's sources). Per the spec's
Proximity Index contract, candidates within `radiusKm` of the center that
satisfy `predicate` are ranked ascending by distance with ties broken by
ascending id, and at most `k` are returned. `dist` is the distance from
the query center (haversine in the source). -/
def KNearest (dist : GeoPoint → ℚ) (points : List GeoPoint) (k : ℕ)
    (radiusKm : ℚ) (pred : GeoPoint → Bool) : List GeoPoint :=
  (((points.filter fun p => pred p && decide (dist p ≤ radiusKm)).mergeSort
    (distIdLE dist)).take k)

theorem distIdLE_trans (dist : GeoPoint → ℚ) (p q r : GeoPoint)
    (hpq : distIdLE dist p q) (hqr : distIdLE dist q r) : distIdLE dist p r := by
  simp only [distIdLE, Bool.or_eq_true, Bool.and_eq_true, decide_eq_true_eq] at *
  rcases hpq with h1 | ⟨h1, h1id⟩ <;> rcases hqr with h2 | ⟨h2, h2id⟩
  · exact Or.inl (h1.trans h2)
  · exact Or.inl (h2 ▸ h1)
  · exact Or.inl (h1 ▸ h2)
  · exact Or.inr ⟨h1.trans h2, h1id.trans h2id⟩

theorem distIdLE_total (dist : GeoPoint → ℚ) (p q : GeoPoint) :
    distIdLE dist p q || distIdLE dist q p := by
  simp only [distIdLE, Bool.or_eq_true, Bool.and_eq_true, decide_eq_true_eq]
  rcases lt_trichotomy (dist p) (dist q) with h | h | h
  · exact Or.inl (Or.inl h)
  · rcases le_total p.id q.id with hid | hid
    · exact Or.inl (Or.inr ⟨h, hid⟩)
    · exact Or.inr (Or.inr ⟨h.symm, hid⟩)
  · exact Or.inr (Or.inl h)

/-- The result of the modelled `KNearest` is pairwise ordered by ascending
distance with ties broken by ascending id. -/
theorem kNearest_pairwise (dist : GeoPoint → ℚ) (points : List GeoPoint)
    (k : ℕ) (radiusKm : ℚ) (pred : GeoPoint → Bool) :
    (KNearest dist points k radiusKm pred).Pairwise
      (fun p q => dist p < dist q ∨ (dist p = dist q ∧ p.id ≤ q.id)) := by
  have hs :
      ((points.filter fun p => pred p && decide (dist p ≤ radiusKm)).mergeSort
        (distIdLE dist)).Pairwise (fun p q => distIdLE dist p q) :=
    List.sorted_mergeSort (distIdLE_trans dist) (distIdLE_total dist) _
  have ht := hs.sublist (List.take_sublist k _)
  refine (List.Pairwise.imp ?_) ht
  intro p q h
  simpa only [distIdLE, Bool.or_eq_true, Bool.and_eq_true, decide_eq_true_eq] using h

/-- Every member of the modelled `KNearest` result came from the candidate
set, satisfies the predicate, and lies within the radius. -/
theorem kNearest_mem (dist : GeoPoint → ℚ) (points : List GeoPoint)
    (k : ℕ) (radiusKm : ℚ) (pred : GeoPoint → Bool) (p : GeoPoint)
    (hp : p ∈ KNearest dist points k radiusKm pred) :
    p ∈ points ∧ pred p = true ∧ dist p ≤ radiusKm := by
  have h1 : p ∈ (points.filter fun q => pred q && decide (dist q ≤ radiusKm)).mergeSort
      (distIdLE dist) := List.mem_of_mem_take hp
  have h2 := List.mem_mergeSort.mp h1
  have h3 := List.of_mem_filter h2
  simp only [Bool.and_eq_true, decide_eq_true_eq] at h3
  exact ⟨List.mem_of_mem_filter h2, h3.1, h3.2⟩

/-! ## Geo service (`package geo`) -/

namespace Geo

/-- Constant `maxSearchRadius = 10` (kilometres) from the geo service. -/
def maxSearchRadius : ℚ := 10

/-- Constant `maxSearchResults = 5` from the geo service. -/
def maxSearchResults : ℕ := 5

/-- The gRPC `geo.Request` payload (`Lat`, `Lon`). -/
structure Request where
  lat : ℚ
  lon : ℚ
deriving Repr, DecidableEq

/-- The gRPC `geo.Result` payload (`HotelIds`). -/
structure Result where
  hotelIds : List String
deriving Repr, DecidableEq

/-- `getNearbyPoints`: queries the index's `KNearest` at the given center
with `maxSearchResults`, `Km(maxSearchRadius)` and an always-true filter.
`dist lat lon` is the haversine distance from the center `(lat, lon)`. -/
def getNearbyPoints (dist : ℚ → ℚ → GeoPoint → ℚ) (geoidx : List GeoPoint)
    (lat lon : ℚ) : List GeoPoint :=
  KNearest (dist lat lon) geoidx maxSearchResults maxSearchRadius (fun _ => true)

/-- `Nearby`: collects the ids of `getNearbyPoints` into a `Result` and
returns a nil error (the Go method always returns `(res, nil)`). -/
def Nearby (dist : ℚ → ℚ → GeoPoint → ℚ) (geoidx : List GeoPoint)
    (req : Request) : Except String Result :=
  Except.ok { hotelIds := (getNearbyPoints dist geoidx req.lat req.lon).map GeoPoint.id }

/-- Error taxonomy the spec prescribes for index building; the source has
no corresponding type, so these are introduced solely to state the claim. -/
inductive GeoBuildError
  | DuplicateIdError
  | InvalidCoordinateError
deriving Repr, DecidableEq

/-- `newGeoIndex` after JSON decoding: a fresh index to which each parsed
point is added in turn by the loop `for _, point := range points
\x7b index.Add(point) \x7d`. The Go function's return type is a bare index
pointer with no error value; the `Except` wrapper records that the build
loop has no failure path (it performs no duplicate-id and no
coordinate-range check). -/
def newGeoIndex (points : List GeoPoint) : Except GeoBuildError (List GeoPoint) :=
  Except.ok (points.foldl (fun index p => index ++ [p]) [])

end Geo

/-- Appending one element at a time from the left collects the mapped list. -/
theorem foldl_append_singleton {α β : Type} (f : α → β) (l : List α) (acc : List β) :
    l.foldl (fun a x => a ++ [f x]) acc = acc ++ l.map f := by
  induction l generalizing acc with
  | nil => simp
  | cons x xs ih => simp [ih]

/-- C1: the points returned by `KNearest` as invoked by the geo service's
`getNearbyPoints` are sorted in ascending order of distance from the query
center (haversine in the source, here the parameter `dist`), ties between
equidistant points broken by ascending point id. -/
theorem c1_getNearbyPoints_sorted (dist : ℚ → ℚ → GeoPoint → ℚ)
    (geoidx : List GeoPoint) (lat lon : ℚ) :
    (Geo.getNearbyPoints dist geoidx lat lon).Pairwise
      (fun p q => dist lat lon p < dist lat lon q ∨
        (dist lat lon p = dist lat lon q ∧ p.id ≤ q.id)) :=
  kNearest_pairwise (dist lat lon) geoidx Geo.maxSearchResults Geo.maxSearchRadius
    (fun _ => true)

/-- C2: `KNearest` returns at most `k` points, and every returned point
lies within `radiusKm` of the query center; a farther point is excluded
even when fewer than `k` points are returned. -/
theorem c2_kNearest_bounded (dist : GeoPoint → ℚ) (points : List GeoPoint)
    (k : ℕ) (radiusKm : ℚ) (pred : GeoPoint → Bool) :
    (KNearest dist points k radiusKm pred).length ≤ k ∧
      ∀ p ∈ KNearest dist points k radiusKm pred, dist p ≤ radiusKm := by
  constructor
  · exact List.length_take_le k _
  · intro p hp
    exact (kNearest_mem dist points k radiusKm pred p hp).2.2

/-- C3 counterexample: `newGeoIndex` does not fail on a duplicate id nor on
an out-of-range coordinate; it returns a built index for both inputs. -/
theorem c3_newGeoIndex_counterexample :
    Geo.newGeoIndex [⟨"A", 1, 1⟩, ⟨"A", 2, 2⟩] =
        Except.ok [⟨"A", 1, 1⟩, ⟨"A", 2, 2⟩] ∧
      Geo.newGeoIndex [⟨"B", 200, 300⟩] = Except.ok [⟨"B", 200, 300⟩] ∧
      Geo.newGeoIndex [⟨"A", 1, 1⟩, ⟨"A", 2, 2⟩] ≠
        Except.error Geo.GeoBuildError.DuplicateIdError ∧
      Geo.newGeoIndex [⟨"B", 200, 300⟩] ≠
        Except.error Geo.GeoBuildError.InvalidCoordinateError := by
  refine ⟨rfl, rfl, ?_, ?_⟩ <;> simp [Geo.newGeoIndex]

/-- C3 amended: building the index never fails; `newGeoIndex` performs no
duplicate-id or coordinate-range validation and returns an index holding
every parsed point, in input order. -/
theorem c3_newGeoIndex_never_fails (points : List GeoPoint) :
    Geo.newGeoIndex points = Except.ok points := by
  unfold Geo.newGeoIndex
  rw [foldl_append_singleton (fun p => p) points []]
  simp

/-- C6: the geo facade's `Nearby` delegates to the index's `KNearest` with
the fixed constants `k = 5`, `radius = 10` km and an always-true predicate,
returns the ids of the returned points in the same order, and returns a
nil error. -/
theorem c6_nearby_delegates (dist : ℚ → ℚ → GeoPoint → ℚ)
    (geoidx : List GeoPoint) (req : Geo.Request) :
    Geo.Nearby dist geoidx req =
      Except.ok { hotelIds :=
        (KNearest (dist req.lat req.lon) geoidx 5 10 (fun _ => true)).map GeoPoint.id } :=
  rfl

/-! ## Frontend service (`package frontend`) -/

namespace Frontend

/-- The gRPC `search.NearbyRequest` payload sent to the search dependent. -/
structure NearbyRequest where
  lat : ℚ
  lon : ℚ
  inDate : String
  outDate : String
deriving Repr, DecidableEq

/-- The search dependent's reply (`HotelIds`). -/
structure SearchResult where
  hotelIds : List String
deriving Repr, DecidableEq

/-- The gRPC `profile.Request` payload sent to the profile dependent. -/
structure ProfileRequest where
  hotelIds : List String
  locale : String
deriving Repr, DecidableEq

/-- A hotel record as consumed by `geoJSONResponse` (`Id`, `Name`,
`PhoneNumber`, `Address.Lat`, `Address.Lon`). -/
structure Hotel where
  id : String
  name : String
  phoneNumber : String
  lat : ℚ
  lon : ℚ
deriving Repr, DecidableEq

/-- The profile dependent's reply (`Hotels`). -/
structure ProfileResult where
  hotels : List Hotel
deriving Repr, DecidableEq

/-- One outbound call made by the handler to a dependent service. -/
inductive DepCall
  | nearby (req : NearbyRequest)
  | getProfiles (req : ProfileRequest)
deriving Repr, DecidableEq

/-- The two wired dependent connections, abstracted as reply functions
(an `Except.error` reply is a gRPC call that returned an error). -/
structure Deps where
  nearbyResp : NearbyRequest → Except String SearchResult
  getProfilesResp : ProfileRequest → Except String ProfileResult

/-- The parts of an inbound `GET /hotels` request the handler reads:
the `inDate`, `outDate` and `locale` query parameters (absent ≃ `""`,
as `url.Values.Get` returns `""` for a missing key). -/
structure HttpRequest where
  inDate : String
  outDate : String
  locale : String
deriving Repr, DecidableEq

/-- One GeoJSON `Feature` of the success response: id, name and phone
properties plus `[lon, lat]` point coordinates. -/
structure Feature where
  id : String
  name : String
  phoneNumber : String
  coordinates : List ℚ
deriving Repr, DecidableEq

/-- A response body: `http.Error` writes plain text; success encodes a
GeoJSON `FeatureCollection`. -/
inductive HttpBody
  | text (msg : String)
  | geoJSON (features : List Feature)
deriving Repr, DecidableEq

/-- The response the handler writes: status code and body. -/
structure HttpResponse where
  status : ℕ
  body : HttpBody
deriving Repr, DecidableEq

/-- `geoJSONResponse`: one `Feature` per hotel, with `coordinates`
`[lon, lat]`. -/
def geoJSONResponse (hs : List Hotel) : List Feature :=
  hs.map fun h =>
    { id := h.id, name := h.name, phoneNumber := h.phoneNumber,
      coordinates := [h.lon, h.lat] }

/-- `searchHandler`: validates `inDate`/`outDate`, calls the search
dependent's `Nearby` with the fixed coordinates `37.7879, -122.4075`,
then the profile dependent's `GetProfiles` with the returned ids and the
locale (default `en`), and encodes the GeoJSON response. Returns the
written response together with the list of dependent calls made. -/
def searchHandler (deps : Deps) (r : HttpRequest) : HttpResponse × List DepCall :=
  if r.inDate = "" ∨ r.outDate = "" then
    ({ status := 400, body := HttpBody.text ("Please specify inDate/outDate params") }, [])
  else
    let nreq : NearbyRequest :=
      { lat := 37.7879, lon := -122.4075, inDate := r.inDate, outDate := r.outDate }
    match deps.nearbyResp nreq with
    | Except.error e => ({ status := 500, body := HttpBody.text e }, [DepCall.nearby nreq])
    | Except.ok searchResp =>
      let locale := if r.locale = "" then "en" else r.locale
      let preq : ProfileRequest := { hotelIds := searchResp.hotelIds, locale := locale }
      match deps.getProfilesResp preq with
      | Except.error e =>
          ({ status := 500, body := HttpBody.text e },
            [DepCall.nearby nreq, DepCall.getProfiles preq])
      | Except.ok profileResp =>
          ({ status := 200, body := HttpBody.geoJSON (geoJSONResponse profileResp.hotels) },
            [DepCall.nearby nreq, DepCall.getProfiles preq])

end Frontend

/-- C4: a `GET /hotels` request with a missing or empty `inDate` or
`outDate` gets an HTTP 400 plain-text response, and no dependent call is
made. -/
theorem c4_missing_dates_400_no_calls (deps : Frontend.Deps)
    (r : Frontend.HttpRequest) (h : r.inDate = "" ∨ r.outDate = "") :
    (Frontend.searchHandler deps r).1.status = 400 ∧
      (Frontend.searchHandler deps r).1.body =
        Frontend.HttpBody.text ("Please specify inDate/outDate params") ∧
      (Frontend.searchHandler deps r).2 = [] := by
  simp [Frontend.searchHandler, if_pos h]

theorem c4_missing_dates_400_no_calls_witness :
    ((⟨"", "2015-04-10", ""⟩ : Frontend.HttpRequest).inDate = "" ∨
        (⟨"", "2015-04-10", ""⟩ : Frontend.HttpRequest).outDate = "") ∧
      (Frontend.searchHandler
        ⟨fun _ => Except.ok ⟨[]⟩, fun _ => Except.ok ⟨[]⟩⟩
        ⟨"", "2015-04-10", ""⟩).1.status = 400 :=
  ⟨Or.inl rfl,
    (c4_missing_dates_400_no_calls
      ⟨fun _ => Except.ok ⟨[]⟩, fun _ => Except.ok ⟨[]⟩⟩
      ⟨"", "2015-04-10", ""⟩ (Or.inl rfl)).1⟩

/-- C5: when both dates are present and the search dependent's `Nearby`
returns an error, the handler responds HTTP 500 with that error's message
as the body, and the profile dependent's `GetProfiles` is never called. -/
theorem c5_nearby_error_500_no_profile_call (deps : Frontend.Deps)
    (r : Frontend.HttpRequest) (e : String)
    (h1 : r.inDate ≠ "") (h2 : r.outDate ≠ "")
    (he : deps.nearbyResp
        { lat := 37.7879, lon := -122.4075, inDate := r.inDate, outDate := r.outDate } =
      Except.error e) :
    (Frontend.searchHandler deps r).1.status = 500 ∧
      (Frontend.searchHandler deps r).1.body = Frontend.HttpBody.text e ∧
      ∀ preq, Frontend.DepCall.getProfiles preq ∉ (Frontend.searchHandler deps r).2 := by
  simp [Frontend.searchHandler, h1, h2, he]

theorem c5_nearby_error_500_no_profile_call_witness :
    (("2015-04-09" : String) ≠ "") ∧ (("2015-04-10" : String) ≠ "") ∧
      (Frontend.searchHandler
        ⟨fun _ => Except.error ("search backend down"), fun _ => Except.ok ⟨[]⟩⟩
        ⟨"2015-04-09", "2015-04-10", ""⟩).1.status = 500 :=
  ⟨by decide, by decide,
    (c5_nearby_error_500_no_profile_call
      ⟨fun _ => Except.error ("search backend down"), fun _ => Except.ok ⟨[]⟩⟩
      ⟨"2015-04-09", "2015-04-10", ""⟩ ("search backend down")
      (by decide) (by decide) rfl).1⟩

/-- C8: whenever date validation passes, the handler's first (and only)
outbound `Nearby` call carries the fixed coordinates `lat = 37.7879`,
`lon = -122.4075`, independent of anything in the incoming request. -/
theorem c8_nearby_fixed_coordinates (deps : Frontend.Deps)
    (r : Frontend.HttpRequest) (h1 : r.inDate ≠ "") (h2 : r.outDate ≠ "") :
    (Frontend.searchHandler deps r).2.head? =
      some (Frontend.DepCall.nearby
        { lat := 37.7879, lon := -122.4075, inDate := r.inDate, outDate := r.outDate }) := by
  rcases hn : deps.nearbyResp
      { lat := 37.7879, lon := -122.4075, inDate := r.inDate, outDate := r.outDate }
    with e | sr
  · simp [Frontend.searchHandler, h1, h2, hn]
  · rcases hp : deps.getProfilesResp
        { hotelIds := sr.hotelIds, locale := if r.locale = "" then "en" else r.locale }
      with e2 | pr
    · simp [Frontend.searchHandler, h1, h2, hn, hp]
    · simp [Frontend.searchHandler, h1, h2, hn, hp]

theorem c8_nearby_fixed_coordinates_witness :
    (("2015-04-09" : String) ≠ "") ∧ (("2015-04-10" : String) ≠ "") ∧
      (Frontend.searchHandler
        ⟨fun _ => Except.ok ⟨["h1", "h2"]⟩, fun _ => Except.ok ⟨[]⟩⟩
        ⟨"2015-04-09", "2015-04-10", "zh"⟩).2.head? =
        some (Frontend.DepCall.nearby
          { lat := 37.7879, lon := -122.4075,
            inDate := "2015-04-09", outDate := "2015-04-10" }) :=
  ⟨by decide, by decide,
    c8_nearby_fixed_coordinates
      ⟨fun _ => Except.ok ⟨["h1", "h2"]⟩, fun _ => Except.ok ⟨[]⟩⟩
      ⟨"2015-04-09", "2015-04-10", "zh"⟩ (by decide) (by decide)⟩

/-! ## Profile service (`internal/services/profile/profile.go`) -/

namespace ProfileSvc

/-- The gRPC `profile.Request` payload (`HotelIds`, `Locale`). -/
structure Request where
  hotelIds : List String
  locale : String
deriving Repr, DecidableEq

/-- The gRPC `profile.Result` payload: `Hotels` is a list of hotel
pointers, so a missing id yields a `none` (nil) entry. The generated
hotel record type is opaque here, hence the type parameter. -/
structure Result (Hotel : Type) where
  hotels : List (Option Hotel)

/-- `getProfile`: a lookup in the `profiles` map built at startup; a Go
map read returns the zero value (nil pointer, here `none`) for a missing
key. -/
def getProfile {Hotel : Type} (profiles : String → Option Hotel)
    (id : String) : Option Hotel :=
  profiles id

/-- `GetProfiles`: appends `getProfile id` for each requested id in order
and returns `(res, nil)`. -/
def GetProfiles {Hotel : Type} (profiles : String → Option Hotel)
    (req : Request) : Except String (Result Hotel) :=
  Except.ok
    { hotels := req.hotelIds.foldl (fun acc id => acc ++ [getProfile profiles id]) [] }

end ProfileSvc

/-- C9: `GetProfiles` returns a nil error and one `Hotels` entry per
requested id, in request order; an id absent from the loaded profile map
contributes a `none` (nil) entry rather than an error or an omission. -/
theorem c9_getProfiles_one_entry_per_id {Hotel : Type}
    (profiles : String → Option Hotel) (req : ProfileSvc.Request) :
    ProfileSvc.GetProfiles profiles req =
        Except.ok { hotels := req.hotelIds.map (ProfileSvc.getProfile profiles) } ∧
      (req.hotelIds.map (ProfileSvc.getProfile profiles)).length =
        req.hotelIds.length := by
  constructor
  · unfold ProfileSvc.GetProfiles
    rw [foldl_append_singleton (ProfileSvc.getProfile profiles) req.hotelIds []]
    simp
  · exact List.length_map req.hotelIds (ProfileSvc.getProfile profiles)

/-! ## Entry point (`package main`) -/

namespace Main

/-- The five service roles the dispatcher recognizes. -/
inductive Role
  | geo
  | rate
  | profile
  | search
  | frontend
deriving Repr, DecidableEq

/-- Default dependent address from the `geoaddr` flag. -/
def geoaddr : String := "geo:8080"

/-- Default dependent address from the `rateaddr` flag. -/
def rateaddr : String := "rate:8080"

/-- Default dependent address from the `profileaddr` flag. -/
def profileaddr : String := "profile:8080"

/-- Default dependent address from the `searchaddr` flag. -/
def searchaddr : String := "search:8080"

/-- Observable startup steps of `main`, in program order. -/
inductive Event
  | tracerCreated
  | dialed (addr : String)
  | constructed (role : Role)
  | listenStarted (role : Role)
deriving Repr, DecidableEq

/-- How startup ends: serving a role, a `log.Fatalf` exit, or the runtime
panic raised by an out-of-range `os.Args[1]` access. -/
inductive Outcome
  | serving (role : Role)
  | fatal (msg : String)
  | panicIndexOutOfRange
deriving Repr, DecidableEq

/-- The role selected by the `switch cmd` statement, `none` for the
`default` branch. -/
def roleOfCmd (cmd : String) : Option Role :=
  if cmd = "geo" then some Role.geo
  else if cmd = "rate" then some Role.rate
  else if cmd = "profile" then some Role.profile
  else if cmd = "search" then some Role.search
  else if cmd = "frontend" then some Role.frontend
  else none

/-- The `dial` calls each role's constructor performs, in source order
(search dials geo then rate; frontend dials search then profile). -/
def dialEvents : Role → List Event
  | Role.geo => []
  | Role.rate => []
  | Role.profile => []
  | Role.search => [Event.dialed geoaddr, Event.dialed rateaddr]
  | Role.frontend => [Event.dialed searchaddr, Event.dialed profileaddr]

/-- `main` after a successful `trace.New`: reads `os.Args[1]` (a panic
when the argument list holds only the program name), switches on the
command, and either exits fatally on an unknown command or constructs the
selected service and starts its listen loop. Returns the emitted events
and the outcome. -/
def mainRun (args : List String) : List Event × Outcome :=
  match args with
  | _ :: cmd :: _ =>
    match roleOfCmd cmd with
    | none => ([Event.tracerCreated], Outcome.fatal ("unknown cmd: " ++ cmd))
    | some role =>
      ([Event.tracerCreated] ++ dialEvents role ++
          [Event.constructed role, Event.listenStarted role],
        Outcome.serving role)
  | _ => ([Event.tracerCreated], Outcome.panicIndexOutOfRange)

end Main

/-- C7: an unrecognized role token makes startup exit with a fatal error;
no service facade is constructed and no listen loop starts. -/
theorem c7_unknown_cmd_fatal (prog cmd : String) (rest : List String)
    (h : cmd ∉ ["geo", "rate", "profile", "search", "frontend"]) :
    Main.mainRun (prog :: cmd :: rest) =
        ([Main.Event.tracerCreated], Main.Outcome.fatal ("unknown cmd: " ++ cmd)) ∧
      ∀ role, Main.Event.constructed role ∉ (Main.mainRun (prog :: cmd :: rest)).1 ∧
        Main.Event.listenStarted role ∉ (Main.mainRun (prog :: cmd :: rest)).1 := by
  simp only [List.mem_cons, List.mem_singleton, not_or] at h
  have hr : Main.roleOfCmd cmd = none := by
    simp [Main.roleOfCmd, h.1, h.2.1, h.2.2.1, h.2.2.2.1, h.2.2.2.2]
  constructor
  · simp [Main.mainRun, hr]
  · intro role
    simp [Main.mainRun, hr]

theorem c7_unknown_cmd_fatal_witness :
    (("bogus" : String) ∉ ["geo", "rate", "profile", "search", "frontend"]) ∧
      Main.mainRun [("hotelfind"), ("bogus")] =
        ([Main.Event.tracerCreated], Main.Outcome.fatal ("unknown cmd: " ++ "bogus")) :=
  ⟨by decide,
    (c7_unknown_cmd_fatal ("hotelfind") ("bogus") [] (by decide)).1⟩

/-- C10: started with no command-line argument beyond the program name,
`main` reaches the out-of-range `os.Args[1]` access and panics, after the
tracer was created and without reaching the unknown-command fatal path. -/
theorem c10_no_args_panics (prog : String) :
    Main.mainRun [prog] =
        ([Main.Event.tracerCreated], Main.Outcome.panicIndexOutOfRange) ∧
      ∀ msg, (Main.mainRun [prog]).2 ≠ Main.Outcome.fatal msg := by
  refine ⟨rfl, ?_⟩
  intro msg
  simp [Main.mainRun]

end HotelFind
